import Mathlib

/-!
A shallow embedding of the DOM-interaction scripts of the wedding-invite
site (js/main.js, js/animations.js, js/forms.js), together with proofs of
the behavioural properties stated in the design specification.
-/

namespace WeddingInvite

/-!
### Accordion (initAccordion in js/main.js)

An accordion item is represented by its presentational open flag: the item
carries the class `active` and its header carries `aria-expanded="true"`
exactly when the flag is true.  The document may contain several accordion
containers, each an ordered list of items.  The click handler installed by
`initAccordion` operates on `document.querySelectorAll` results, hence
document-wide.  The keyboard handler (Enter / Space) calls `header.click()`
and therefore runs the very same handler.
-/

/-- A document of accordion containers: each container is the ordered list
of its items, an item represented by its open flag (the `active` class /
`aria-expanded="true"` pair). -/
abbrev AccordionDoc := List (List Bool)

/-- Open flag of item `k` of container `g`; false when out of range, as a
missing element carries no class. -/
def itemOpen (doc : AccordionDoc) (g k : Nat) : Bool :=
  (doc.getD g []).getD k false

/-- The inner loop of the handler: `document.querySelectorAll('.accordion-item')`
followed by removing `active` and setting `aria-expanded="false"` on every
accordion item of the whole document. -/
def closeAllItems (doc : AccordionDoc) : AccordionDoc :=
  doc.map (fun grp => grp.map (fun _ => false))

/-- The click handler `initAccordion` installs on the header of item `k` of
container `g`: record whether the clicked item was active, close every
accordion item in the document, then re-open the clicked item exactly when
it was not active. -/
def clickAccordionHeader (doc : AccordionDoc) (g k : Nat) : AccordionDoc :=
  if itemOpen doc g k then closeAllItems doc
  else (closeAllItems doc).set g (((closeAllItems doc).getD g []).set k true)

/-- Number of open items in one container. -/
def openCount (grp : List Bool) : Nat :=
  grp.countP (fun b => b)

/-- Number of open accordion items in the whole document. -/
def totalOpen (doc : AccordionDoc) : Nat :=
  (doc.map openCount).sum

/-- A sequence of header clicks, applied in order. -/
def applyClicks (doc : AccordionDoc) (ks : List (Nat × Nat)) : AccordionDoc :=
  ks.foldl (fun d p => clickAccordionHeader d p.1 p.2) doc

/-- At most one item open in every container. -/
def groupsAtMostOne (doc : AccordionDoc) : Prop :=
  ∀ grp ∈ doc, openCount grp ≤ 1

instance (doc : AccordionDoc) : Decidable (groupsAtMostOne doc) :=
  inferInstanceAs (Decidable (∀ grp ∈ doc, openCount grp ≤ 1))

theorem openCount_map_false (grp : List Bool) :
    openCount (grp.map (fun _ => false)) = 0 := by
  induction grp with
  | nil => rfl
  | cons b t ih =>
    rw [List.map_cons]
    rw [show openCount (false :: t.map (fun _ => false)) =
        openCount (t.map (fun _ => false)) + 0 from List.countP_cons _ _ _]
    rw [ih]

theorem openCount_cons (b : Bool) (t : List Bool) :
    openCount (b :: t) = openCount t + (if b = true then 1 else 0) :=
  List.countP_cons _ _ _

theorem openCount_set_true_le (grp : List Bool) (k : Nat)
    (h : openCount grp = 0) : openCount (grp.set k true) ≤ 1 := by
  induction grp generalizing k with
  | nil => simp [openCount]
  | cons b t ih =>
    rw [openCount_cons] at h
    have ht : openCount t = 0 := by omega
    have hb : b = false := by
      cases b
      · rfl
      · simp at h
    cases k with
    | zero => simp [openCount_cons, ht]
    | succ k => simpa [openCount_cons, hb] using ih k ht

theorem getD_set_ne {α : Type} (l : List α) (i j : Nat) (a d : α)
    (h : i ≠ j) : (l.set i a).getD j d = l.getD j d := by
  induction l generalizing i j with
  | nil => simp
  | cons x t ih =>
    cases i with
    | zero =>
      cases j with
      | zero => exact absurd rfl h
      | succ j => simp
    | succ i =>
      cases j with
      | zero => simp
      | succ j => simpa using ih i j (fun hij => h (by simp [hij]))

theorem getD_set_self {α : Type} (l : List α) (i : Nat) (a d : α)
    (h : i < l.length) : (l.set i a).getD i d = a := by
  induction l generalizing i with
  | nil => simp at h
  | cons x t ih =>
    cases i with
    | zero => simp
    | succ i => simpa using ih i (by simpa using h)

theorem getD_eq_false_of_openCount_zero (grp : List Bool) (k : Nat)
    (h : openCount grp = 0) : grp.getD k false = false := by
  induction grp generalizing k with
  | nil => simp
  | cons b t ih =>
    rw [openCount_cons] at h
    have hb : b = false := by
      cases b
      · rfl
      · simp at h
    cases k with
    | zero => simpa using hb
    | succ k => simpa using ih k (by omega)

theorem openCount_closeAll_getD (doc : AccordionDoc) (g : Nat) :
    openCount ((closeAllItems doc).getD g []) = 0 := by
  induction doc generalizing g with
  | nil => cases g <;> rfl
  | cons hd t ih =>
    cases g with
    | zero => simpa [closeAllItems] using openCount_map_false hd
    | succ g => simpa [closeAllItems] using ih g

theorem itemOpen_closeAll (doc : AccordionDoc) (g k : Nat) :
    itemOpen (closeAllItems doc) g k = false :=
  getD_eq_false_of_openCount_zero _ k (openCount_closeAll_getD doc g)

theorem totalOpen_nil : totalOpen [] = 0 := rfl

theorem totalOpen_cons (grp : List Bool) (t : AccordionDoc) :
    totalOpen (grp :: t) = openCount grp + totalOpen t := by
  simp [totalOpen]

theorem closeAll_cons (hd : List Bool) (t : AccordionDoc) :
    closeAllItems (hd :: t) = hd.map (fun _ => false) :: closeAllItems t := rfl

theorem totalOpen_closeAll (doc : AccordionDoc) :
    totalOpen (closeAllItems doc) = 0 := by
  induction doc with
  | nil => rfl
  | cons hd t ih =>
    rw [closeAll_cons, totalOpen_cons, openCount_map_false, ih]

theorem totalOpen_set_le (doc : AccordionDoc) (g : Nat) (grp : List Bool)
    (h : totalOpen doc = 0) : totalOpen (doc.set g grp) ≤ openCount grp := by
  induction doc generalizing g with
  | nil => simp [totalOpen_nil]
  | cons hd t ih =>
    rw [totalOpen_cons] at h
    have h1 : openCount hd = 0 := by omega
    have h2 : totalOpen t = 0 := by omega
    cases g with
    | zero => simp [totalOpen_cons, h2]
    | succ g =>
      have := ih g h2
      simp [totalOpen_cons, h1]
      omega

theorem totalOpen_click_le (doc : AccordionDoc) (g k : Nat) :
    totalOpen (clickAccordionHeader doc g k) ≤ 1 := by
  unfold clickAccordionHeader
  by_cases h : itemOpen doc g k = true
  · simp [h, totalOpen_closeAll]
  · simp only [h, if_false, Bool.false_eq_true]
    calc totalOpen ((closeAllItems doc).set g
            (((closeAllItems doc).getD g []).set k true))
        ≤ openCount (((closeAllItems doc).getD g []).set k true) :=
          totalOpen_set_le _ g _ (totalOpen_closeAll doc)
      _ ≤ 1 := openCount_set_true_le _ k (openCount_closeAll_getD doc g)

theorem itemOpen_click_ne (doc : AccordionDoc) (g k g' k' : Nat)
    (h : ¬(g' = g ∧ k' = k)) :
    itemOpen (clickAccordionHeader doc g k) g' k' = false := by
  unfold clickAccordionHeader
  by_cases hact : itemOpen doc g k = true
  · simpa [hact] using itemOpen_closeAll doc g' k'
  · simp only [hact, if_false, Bool.false_eq_true]
    by_cases hg : g' = g
    · subst hg
      have hk : k' ≠ k := fun hk => h ⟨rfl, hk⟩
      by_cases hlen : g' < (closeAllItems doc).length
      · unfold itemOpen
        rw [getD_set_self _ _ _ _ hlen, getD_set_ne _ _ _ _ _ (Ne.symm hk)]
        exact getD_eq_false_of_openCount_zero _ k' (openCount_closeAll_getD doc g')
      · unfold itemOpen
        rw [List.set_eq_of_length_le (by omega)]
        exact itemOpen_closeAll doc g' k'
    · unfold itemOpen
      rw [getD_set_ne _ _ _ _ _ (fun hgg => hg hgg.symm)]
      exact itemOpen_closeAll doc g' k'

theorem mem_of_mem_set {α : Type} {l : List α} {i : Nat} {a x : α}
    (h : x ∈ l.set i a) : x = a ∨ x ∈ l := by
  induction l generalizing i with
  | nil => simp at h
  | cons hd t ih =>
    cases i with
    | zero =>
      rcases List.mem_cons.mp h with h1 | h1
      · exact Or.inl h1
      · exact Or.inr (List.mem_cons_of_mem _ h1)
    | succ i =>
      rcases List.mem_cons.mp h with h1 | h1
      · exact Or.inr (by simp [h1])
      · rcases ih h1 with h2 | h2
        · exact Or.inl h2
        · exact Or.inr (List.mem_cons_of_mem _ h2)

theorem openCount_of_mem_closeAll {doc : AccordionDoc} {grp : List Bool}
    (h : grp ∈ closeAllItems doc) : openCount grp = 0 := by
  rcases List.mem_map.mp h with ⟨a, _, rfl⟩
  exact openCount_map_false a

theorem groupsAtMostOne_click (doc : AccordionDoc) (g k : Nat) :
    groupsAtMostOne (clickAccordionHeader doc g k) := by
  intro grp hmem
  unfold clickAccordionHeader at hmem
  by_cases hact : itemOpen doc g k = true
  · rw [if_pos hact] at hmem
    exact le_trans (openCount_of_mem_closeAll hmem).le (by omega)
  · rw [if_neg hact] at hmem
    rcases mem_of_mem_set hmem with h1 | h1
    · subst h1
      exact openCount_set_true_le _ k (openCount_closeAll_getD doc g)
    · exact le_trans (openCount_of_mem_closeAll h1).le (by omega)

theorem groupsAtMostOne_applyClicks (doc : AccordionDoc)
    (h : groupsAtMostOne doc) (ks : List (Nat × Nat)) :
    groupsAtMostOne (applyClicks doc ks) := by
  induction ks generalizing doc with
  | nil => exact h
  | cons p rest ih =>
    exact ih (clickAccordionHeader doc p.1 p.2) (groupsAtMostOne_click doc p.1 p.2)

theorem totalOpen_applyClicks_le (doc : AccordionDoc) (ks : List (Nat × Nat))
    (h : ks ≠ []) : totalOpen (applyClicks doc ks) ≤ 1 := by
  induction ks generalizing doc with
  | nil => exact absurd rfl h
  | cons p rest ih =>
    cases rest with
    | nil => exact totalOpen_click_le doc p.1 p.2
    | cons q rest2 =>
      exact ih (clickAccordionHeader doc p.1 p.2) (by simp)

/-- C1: for every exclusive disclosure group (the accordion), after any
finite sequence of activate calls (header clicks), at most one item in the
group carries the open state (the `active` class / `aria-expanded="true"`). -/
theorem C1_accordion_exclusive_invariant (doc : AccordionDoc)
    (h : groupsAtMostOne doc) (ks : List (Nat × Nat)) :
    groupsAtMostOne (applyClicks doc ks) :=
  groupsAtMostOne_applyClicks doc h ks

theorem C1_accordion_exclusive_invariant_witness :
    groupsAtMostOne (applyClicks [[false, false, false], [false, false]]
      [(0, 1), (0, 1), (1, 0), (0, 2)]) :=
  C1_accordion_exclusive_invariant _ (by decide) _

/-- C9: accordion exclusivity is document-wide: a click on any accordion
header closes every accordion item in the entire document except possibly
the clicked one, so after any nonempty sequence of clicks at most one
accordion item in the whole document is open, even when the markup has
several distinct accordion containers. -/
theorem C9_accordion_document_wide (doc : AccordionDoc) (g k g' k' : Nat)
    (h : ¬(g' = g ∧ k' = k)) :
    itemOpen (clickAccordionHeader doc g k) g' k' = false ∧
    totalOpen (clickAccordionHeader doc g k) ≤ 1 ∧
    ∀ ks, ks ≠ [] → totalOpen (applyClicks doc ks) ≤ 1 :=
  ⟨itemOpen_click_ne doc g k g' k' h, totalOpen_click_le doc g k,
   fun ks hks => totalOpen_applyClicks_le doc ks hks⟩

theorem C9_accordion_document_wide_witness :
    itemOpen (clickAccordionHeader [[true], [false]] 1 0) 0 0 = false ∧
    totalOpen (clickAccordionHeader [[true], [false]] 1 0) ≤ 1 ∧
    totalOpen (applyClicks [[true], [false]] [(1, 0)]) ≤ 1 := by
  have h := C9_accordion_document_wide [[true], [false]] 1 0 0 0 (by decide)
  exact ⟨h.1, h.2.1, h.2.2 [(1, 0)] (by decide)⟩

/-!
### Itinerary tabs (initItineraryTabs in js/main.js)

A tab button carries a `data-tab` attribute naming the id of its panel and
an `active` class; a tab panel carries an element id and an `active` class.
The click handler removes `active` from every button and every panel, adds
`active` to the clicked button, and then adds `active` to the element whose
id equals the clicked button's `data-tab` value, when such an element
exists.  There is no toggle branch: the previous state of the clicked
button is never consulted.
-/

/-- A tab button: its `data-tab` attribute value and its `active` class. -/
structure TabButton where
  dataTab : String
  active : Bool
  deriving Repr, DecidableEq

/-- A tab panel: its element id and its `active` class. -/
structure TabPanel where
  id : String
  active : Bool
  deriving Repr, DecidableEq

/-- The itinerary-tabs portion of the document. -/
structure TabsState where
  buttons : List TabButton
  panels : List TabPanel
  deriving Repr, DecidableEq

/-- The first forEach of the click handler: remove `active` from every tab
button. -/
def deactivateButtons (bs : List TabButton) : List TabButton :=
  bs.map (fun b => { b with active := false })

/-- The second forEach of the click handler: remove `active` from every tab
panel. -/
def deactivatePanels (ps : List TabPanel) : List TabPanel :=
  ps.map (fun p => { p with active := false })

/-- Model of `document.getElementById(targetTab)` followed by
`classList.add('active')`: activate the first panel whose id equals the
target; when no panel matches, nothing happens (the handler's null check). -/
def activateFirstPanel : List TabPanel → String → List TabPanel
  | [], _ => []
  | p :: rest, target =>
    if p.id = target then { p with active := true } :: rest
    else p :: activateFirstPanel rest target

/-- The click handler `initItineraryTabs` installs on tab button `i`: read
the button's `data-tab`, remove `active` from all buttons and panels, add
`active` to the clicked button, then add `active` to the panel whose id is
the `data-tab` value, when it exists.  In the browser `i` is always in
range (the handler is installed on real buttons); the `none` branch only
makes the model total. -/
def clickTabButton (ts : TabsState) (i : Nat) : TabsState :=
  match ts.buttons.get? i with
  | none => ts
  | some btn =>
    { buttons := (deactivateButtons ts.buttons).set i { btn with active := true },
      panels := activateFirstPanel (deactivatePanels ts.panels) btn.dataTab }

theorem countP_map_of_false {α : Type} (p : α → Bool) (f : α → α)
    (hf : ∀ a, p (f a) = false) (l : List α) : (l.map f).countP p = 0 := by
  induction l with
  | nil => rfl
  | cons x t ih =>
    rw [List.map_cons, List.countP_cons, hf x]
    simp [ih]

theorem forall_false_of_countP_zero {α : Type} (p : α → Bool) (l : List α)
    (h : l.countP p = 0) : ∀ a ∈ l, p a = false := by
  induction l with
  | nil => simp
  | cons x t ih =>
    rw [List.countP_cons] at h
    have hx : p x = false := by
      by_contra hx
      rw [Bool.not_eq_false] at hx
      rw [hx] at h
      simp at h
    rw [hx] at h
    simp at h
    intro a ha
    rcases List.mem_cons.mp ha with h1 | h1
    · rw [h1]
      exact hx
    · exact ih (by simpa using h) a h1

theorem countP_set_one {α : Type} (p : α → Bool) (l : List α) (i : Nat) (a : α)
    (h : l.countP p = 0) (ha : p a = true) (hi : i < l.length) :
    (l.set i a).countP p = 1 := by
  induction l generalizing i with
  | nil => simp at hi
  | cons x t ih =>
    rw [List.countP_cons] at h
    have hx : p x = false := by
      by_contra hx
      rw [Bool.not_eq_false] at hx
      rw [hx] at h
      simp at h
    rw [hx] at h
    simp at h
    cases i with
    | zero =>
      simp [List.countP_cons, ha]
      exact h
    | succ i =>
      rw [List.set_cons_succ, List.countP_cons, hx]
      simpa using ih i (by simpa using h) (by simpa using hi)

theorem lt_length_of_get?_eq_some {α : Type} {l : List α} {i : Nat} {a : α}
    (h : l.get? i = some a) : i < l.length := by
  induction l generalizing i with
  | nil => simp at h
  | cons x t ih =>
    cases i with
    | zero => simp
    | succ i => simpa using ih (by simpa using h)

theorem get?_set_self {α : Type} (l : List α) (i : Nat) (a : α)
    (h : i < l.length) : (l.set i a).get? i = some a := by
  induction l generalizing i with
  | nil => simp at h
  | cons x t ih =>
    cases i with
    | zero => simp
    | succ i => simpa using ih i (by simpa using h)

theorem activateFirstPanel_no_match (ps : List TabPanel) (t : String)
    (h : ∀ p ∈ ps, p.id ≠ t) : activateFirstPanel ps t = ps := by
  induction ps with
  | nil => rfl
  | cons q rest ih =>
    unfold activateFirstPanel
    rw [if_neg (h q (List.mem_cons_self q rest))]
    rw [ih (fun p hp => h p (List.mem_cons_of_mem _ hp))]

theorem countP_activateFirstPanel_le (ps : List TabPanel) (t : String)
    (h : ps.countP (fun p => p.active) = 0) :
    (activateFirstPanel ps t).countP (fun p => p.active) ≤ 1 := by
  induction ps with
  | nil => simp [activateFirstPanel]
  | cons q rest ih =>
    rw [List.countP_cons] at h
    have hq : q.active = false := by
      by_contra hq
      rw [Bool.not_eq_false] at hq
      rw [hq] at h
      simp at h
    rw [hq] at h
    simp at h
    unfold activateFirstPanel
    by_cases hid : q.id = t
    · rw [if_pos hid, List.countP_cons]
      simp
      exact h
    · rw [if_neg hid, List.countP_cons, hq]
      simpa using ih (by simpa using h)

theorem active_mem_activateFirstPanel (ps : List TabPanel) (t : String)
    (h : ∀ p ∈ ps, p.active = false) (p : TabPanel)
    (hp : p ∈ activateFirstPanel ps t) (hact : p.active = true) : p.id = t := by
  induction ps with
  | nil => simp [activateFirstPanel] at hp
  | cons q rest ih =>
    unfold activateFirstPanel at hp
    by_cases hid : q.id = t
    · rw [if_pos hid] at hp
      rcases List.mem_cons.mp hp with h1 | h1
      · rw [h1]
        exact hid
      · exact absurd hact (by simp [h p (List.mem_cons_of_mem _ h1)])
    · rw [if_neg hid] at hp
      rcases List.mem_cons.mp hp with h1 | h1
      · rw [h1] at hact
        exact absurd hact (by simp [h q (List.mem_cons_self q rest)])
      · exact ih (fun r hr => h r (List.mem_cons_of_mem _ hr)) h1

theorem closeAll_getD (doc : AccordionDoc) (g : Nat) :
    (closeAllItems doc).getD g [] = (doc.getD g []).map (fun _ => false) := by
  induction doc generalizing g with
  | nil => cases g <;> rfl
  | cons hd t ih =>
    cases g with
    | zero => rfl
    | succ g =>
      rw [closeAll_cons]
      simpa using ih g

theorem length_closeAll (doc : AccordionDoc) :
    (closeAllItems doc).length = doc.length := by
  simp [closeAllItems]

theorem openCount_set_true_eq (grp : List Bool) (k : Nat)
    (h : openCount grp = 0) (hk : k < grp.length) :
    openCount (grp.set k true) = 1 :=
  countP_set_one (fun b => b) grp k true h rfl hk

theorem totalOpen_set_eq (doc : AccordionDoc) (g : Nat) (grp : List Bool)
    (h : totalOpen doc = 0) (hg : g < doc.length) :
    totalOpen (doc.set g grp) = openCount grp := by
  induction doc generalizing g with
  | nil => simp at hg
  | cons hd t ih =>
    rw [totalOpen_cons] at h
    have h1 : openCount hd = 0 := by omega
    have h2 : totalOpen t = 0 := by omega
    cases g with
    | zero => simp [totalOpen_cons, h2]
    | succ g =>
      rw [List.set_cons_succ, totalOpen_cons, h1,
        ih g h2 (by simpa using hg)]
      omega

theorem itemOpen_click_self_closed (doc : AccordionDoc) (g k : Nat)
    (hg : g < doc.length) (hk : k < (doc.getD g []).length)
    (hact : itemOpen doc g k = false) :
    itemOpen (clickAccordionHeader doc g k) g k = true := by
  unfold clickAccordionHeader
  rw [hact]
  simp only [Bool.false_eq_true, if_false]
  unfold itemOpen
  rw [getD_set_self _ _ _ _ (by rw [length_closeAll]; exact hg)]
  rw [getD_set_self]
  rw [closeAll_getD, List.length_map]
  exact hk

theorem totalOpen_click_self_closed (doc : AccordionDoc) (g k : Nat)
    (hg : g < doc.length) (hk : k < (doc.getD g []).length)
    (hact : itemOpen doc g k = false) :
    totalOpen (clickAccordionHeader doc g k) = 1 := by
  unfold clickAccordionHeader
  rw [hact]
  simp only [Bool.false_eq_true, if_false]
  rw [totalOpen_set_eq _ _ _ (totalOpen_closeAll doc)
    (by rw [length_closeAll]; exact hg)]
  refine openCount_set_true_eq _ _ (openCount_closeAll_getD doc g) ?_
  rw [closeAll_getD, List.length_map]
  exact hk

theorem totalOpen_click_self_open (doc : AccordionDoc) (g k : Nat)
    (hact : itemOpen doc g k = true) :
    totalOpen (clickAccordionHeader doc g k) = 0 := by
  unfold clickAccordionHeader
  rw [hact]
  simp only [if_true]
  exact totalOpen_closeAll doc

/-- A two-button, two-panel itinerary fixture with the first pair active,
as rendered after the default tab was selected. -/
def tabsFixture : TabsState :=
  { buttons := [{ dataTab := "day1", active := true },
                { dataTab := "day2", active := false }],
    panels := [{ id := "day1", active := true },
               { id := "day2", active := false }] }

/-- C2 counterexample: in the itinerary tabs, activating the already-active
item 0 does not close it — the document is left exactly as it was, with
item 0 still open, refuting the toggle half of the claim for the tabs
controller. -/
theorem C2_counterexample :
    (tabsFixture.buttons.getD 0 { dataTab := "", active := false }).active = true ∧
    clickTabButton tabsFixture 0 = tabsFixture := by
  constructor
  · rfl
  · rfl

/-- C2 (amended): activation has toggle-or-replace semantics for the
accordion — activating an open item closes every item, activating a closed
item opens exactly that item — while the itinerary tabs are replace-only:
activating tab `i` always leaves button `i` active (even when it was
already active, in which case nothing closes), every panel active
afterwards is the clicked button's target, and at most one panel is
active. -/
theorem C2_exclusive_activation_semantics (doc : AccordionDoc) (g k : Nat)
    (hg : g < doc.length) (hk : k < (doc.getD g []).length)
    (ts : TabsState) (i : Nat) (btn : TabButton)
    (hbtn : ts.buttons.get? i = some btn) :
    (itemOpen doc g k = true → totalOpen (clickAccordionHeader doc g k) = 0) ∧
    (itemOpen doc g k = false →
      itemOpen (clickAccordionHeader doc g k) g k = true ∧
      totalOpen (clickAccordionHeader doc g k) = 1) ∧
    (clickTabButton ts i).buttons.get? i = some { btn with active := true } ∧
    (clickTabButton ts i).buttons.countP (fun b => b.active) = 1 ∧
    (∀ p ∈ (clickTabButton ts i).panels, p.active = true → p.id = btn.dataTab) ∧
    (clickTabButton ts i).panels.countP (fun p => p.active) ≤ 1 := by
  have hlen : i < ts.buttons.length := lt_length_of_get?_eq_some hbtn
  have hclick : clickTabButton ts i =
      { buttons := (deactivateButtons ts.buttons).set i { btn with active := true },
        panels := activateFirstPanel (deactivatePanels ts.panels) btn.dataTab } := by
    unfold clickTabButton
    rw [hbtn]
  have h0b : (deactivateButtons ts.buttons).countP (fun b => b.active) = 0 :=
    countP_map_of_false _ _ (fun _ => rfl) ts.buttons
  have h0p : (deactivatePanels ts.panels).countP (fun p => p.active) = 0 :=
    countP_map_of_false _ _ (fun _ => rfl) ts.panels
  refine ⟨totalOpen_click_self_open doc g k,
    fun hcl => ⟨itemOpen_click_self_closed doc g k hg hk hcl,
      totalOpen_click_self_closed doc g k hg hk hcl⟩, ?_, ?_, ?_, ?_⟩
  · rw [hclick]
    exact get?_set_self _ _ _ (by simpa [deactivateButtons] using hlen)
  · rw [hclick]
    exact countP_set_one _ _ _ _ h0b rfl (by simpa [deactivateButtons] using hlen)
  · rw [hclick]
    intro p hp hact
    exact active_mem_activateFirstPanel _ _
      (forall_false_of_countP_zero _ _ h0p) p hp hact
  · rw [hclick]
    exact countP_activateFirstPanel_le _ _ h0p

theorem C2_exclusive_activation_semantics_witness :
    itemOpen (clickAccordionHeader [[false, true]] 0 0) 0 0 = true ∧
    totalOpen (clickAccordionHeader [[false, true]] 0 0) = 1 ∧
    (clickTabButton tabsFixture 1).buttons.get? 1 =
      some { dataTab := "day2", active := true } ∧
    (clickTabButton tabsFixture 1).buttons.countP (fun b => b.active) = 1 := by
  have h := C2_exclusive_activation_semantics [[false, true]] 0 0 (by decide)
    (by decide) tabsFixture 1 { dataTab := "day2", active := false } (by decide)
  exact ⟨(h.2.1 (by decide)).1, (h.2.1 (by decide)).2, h.2.2.1, h.2.2.2.1⟩

/-- An itinerary fixture whose second button's data-tab names no existing
panel. -/
def tabsBroken : TabsState :=
  { buttons := [{ dataTab := "day1", active := true },
                { dataTab := "nowhere", active := false }],
    panels := [{ id := "day1", active := true }] }

/-- C5 counterexample: clicking the tab button whose data-tab names no
existing panel is not a no-op: the previously active panel loses its
`active` class and the clicked button gains it, so the open/active state
changes. -/
theorem C5_counterexample :
    (tabsBroken.panels.getD 0 { id := "", active := false }).active = true ∧
    ((clickTabButton tabsBroken 1).panels.getD 0
      { id := "", active := false }).active = false ∧
    clickTabButton tabsBroken 1 ≠ tabsBroken := by
  decide

/-- C5 (amended): clicking a tab button whose data-tab names no existing
panel never throws, but it is not a no-op either: it clears the `active`
class on every button and panel, marks the clicked button active, and
leaves no panel active. -/
theorem C5_missing_panel_not_noop (ts : TabsState) (i : Nat) (btn : TabButton)
    (hbtn : ts.buttons.get? i = some btn)
    (hmiss : ∀ p ∈ ts.panels, p.id ≠ btn.dataTab) :
    (clickTabButton ts i).panels = deactivatePanels ts.panels ∧
    (clickTabButton ts i).panels.countP (fun p => p.active) = 0 ∧
    (clickTabButton ts i).buttons.get? i = some { btn with active := true } := by
  have hlen : i < ts.buttons.length := lt_length_of_get?_eq_some hbtn
  have hclick : clickTabButton ts i =
      { buttons := (deactivateButtons ts.buttons).set i { btn with active := true },
        panels := activateFirstPanel (deactivatePanels ts.panels) btn.dataTab } := by
    unfold clickTabButton
    rw [hbtn]
  have hmiss2 : ∀ p ∈ deactivatePanels ts.panels, p.id ≠ btn.dataTab := by
    intro p hp
    rcases List.mem_map.mp hp with ⟨q, hq, rfl⟩
    exact hmiss q hq
  have hpanels : (clickTabButton ts i).panels = deactivatePanels ts.panels := by
    rw [hclick]
    exact activateFirstPanel_no_match _ _ hmiss2
  refine ⟨hpanels, ?_, ?_⟩
  · rw [hpanels]
    exact countP_map_of_false _ _ (fun _ => rfl) ts.panels
  · rw [hclick]
    exact get?_set_self _ _ _ (by simpa [deactivateButtons] using hlen)

theorem C5_missing_panel_not_noop_witness :
    (clickTabButton tabsBroken 1).panels = deactivatePanels tabsBroken.panels ∧
    (clickTabButton tabsBroken 1).panels.countP (fun p => p.active) = 0 ∧
    (clickTabButton tabsBroken 1).buttons.get? 1 =
      some { dataTab := "nowhere", active := true } :=
  C5_missing_panel_not_noop tabsBroken 1 { dataTab := "nowhere", active := false }
    (by decide) (by decide)

/-!
### Initialization of the two controllers (initItineraryTabs, initAccordion)

Neither initializer throws: initItineraryTabs guards empty queries with a
console warning and an early return, and initAccordion has no guard at
all.  The `Except` result type records the specification's prescribed
configuration-time failure so that its absence can be stated.
-/

/-- The configuration-time error the specification prescribes for an empty
or ambiguous group registration. -/
inductive ConfigurationError where
  | emptyRegistration
  | ambiguousOwnership
  deriving Repr, DecidableEq

/-- Outcome of initItineraryTabs: either the guard fired (the handler logs
"Tab elements not found" and returns, attaching no listeners) or the
click/keydown listener pair was attached to every queried tab button. -/
inductive TabsWiring where
  | noWiring
  | wired (buttonsWithListeners : List TabButton)
  deriving Repr, DecidableEq

/-- initItineraryTabs in js/main.js: query the tab buttons and panels; when
either query is empty, warn and return without wiring; otherwise attach
the handlers to every button.  No branch produces an error. -/
def initItineraryTabs (buttons : List TabButton) (panels : List TabPanel) :
    Except ConfigurationError TabsWiring :=
  if buttons.isEmpty || panels.isEmpty then Except.ok TabsWiring.noWiring
  else Except.ok (TabsWiring.wired buttons)

/-- initAccordion in js/main.js: attach the click/keydown handlers to every
queried accordion header (represented by handles); an empty query silently
wires nothing — there is no guard and no error path at all. -/
def initAccordion (headers : List Nat) : Except ConfigurationError (List Nat) :=
  Except.ok headers

/-- True exactly when an initialization outcome is a ConfigurationError. -/
def isConfigError {β : Type} : Except ConfigurationError β → Bool
  | Except.error _ => true
  | Except.ok _ => false

/-- C6 counterexample: registering the itinerary tab group with an empty
set of header/panel pairs does not fail with a ConfigurationError: the
initializer warns and returns the ok no-wiring outcome. -/
theorem C6_counterexample :
    isConfigError (initItineraryTabs [] []) = false ∧
    initItineraryTabs [] [] = Except.ok TabsWiring.noWiring :=
  ⟨rfl, rfl⟩

/-- C6 (amended): an empty registration is not rejected with an error: it
is a warned no-op.  initItineraryTabs returns the ok no-wiring outcome
whenever either query is empty, initAccordion wires nothing for an empty
header list, and neither initializer ever produces a ConfigurationError. -/
theorem C6_empty_registration_noop (buttons : List TabButton)
    (panels : List TabPanel) (headers : List Nat) :
    initItineraryTabs [] panels = Except.ok TabsWiring.noWiring ∧
    initItineraryTabs buttons [] = Except.ok TabsWiring.noWiring ∧
    initAccordion ([] : List Nat) = Except.ok [] ∧
    isConfigError (initItineraryTabs buttons panels) = false ∧
    isConfigError (initAccordion headers) = false := by
  refine ⟨rfl, ?_, rfl, ?_, rfl⟩
  · unfold initItineraryTabs
    simp
  · unfold initItineraryTabs isConfigError
    by_cases h : (buttons.isEmpty || panels.isEmpty) = true <;> simp [h]

/-!
### Scroll animations (class ScrollAnimations in js/animations.js)
-/

namespace ScrollAnimations

/-- One IntersectionObserver notification: the observed target (an element
handle) and whether the configured visibility threshold is met
(entry.isIntersecting, computed by the platform from the threshold the
observer was created with). -/
structure ObserverEntry where
  target : Nat
  isIntersecting : Bool
  deriving Repr, DecidableEq

/-- handleIntersection: for each entry in order, when the entry is
intersecting and its target is not yet in the `animatedElements` set,
trigger the reveal animation (add the `visible` class) and add the target
to the set; otherwise do nothing for that entry.  The state is the
`animatedElements` set, modelled as a duplicate-free insertion list. -/
def handleIntersection (revealed : List Nat) :
    List ObserverEntry → List Nat
  | [] => revealed
  | en :: rest =>
    if en.isIntersecting && !(revealed.contains en.target) then
      handleIntersection (revealed ++ [en.target]) rest
    else handleIntersection revealed rest

theorem mem_handleIntersection (es : List ObserverEntry) (s : List Nat)
    (e : Nat) :
    e ∈ handleIntersection s es ↔
      e ∈ s ∨ ∃ en ∈ es, en.target = e ∧ en.isIntersecting = true := by
  induction es generalizing s with
  | nil => simp [handleIntersection]
  | cons en rest ih =>
    unfold handleIntersection
    by_cases hc : (en.isIntersecting && !(s.contains en.target)) = true
    · rw [if_pos hc, ih]
      have h1 : en.isIntersecting = true := by
        have h2 := hc
        simp at h2
        exact h2.1
      constructor
      · rintro (hs | hrest)
        · rcases List.mem_append.mp hs with hs | hs
          · exact Or.inl hs
          · have he : e = en.target := List.mem_singleton.mp hs
            exact Or.inr ⟨en, List.mem_cons_self en rest, he.symm, h1⟩
        · rcases hrest with ⟨en', hen', hq⟩
          exact Or.inr ⟨en', List.mem_cons_of_mem _ hen', hq⟩
      · rintro (hs | ⟨en', hen', ht, hi⟩)
        · exact Or.inl (List.mem_append.mpr (Or.inl hs))
        · rcases List.mem_cons.mp hen' with rfl | hmem
          · exact Or.inl (List.mem_append.mpr (Or.inr (by simp [ht])))
          · exact Or.inr ⟨en', hmem, ht, hi⟩
    · rw [if_neg hc, ih]
      have hcase : en.isIntersecting = false ∨ en.target ∈ s := by
        cases h1 : en.isIntersecting with
        | false => exact Or.inl rfl
        | true =>
          right
          rw [h1] at hc
          simp at hc
          exact hc
      constructor
      · rintro (hs | hrest)
        · exact Or.inl hs
        · rcases hrest with ⟨en', hen', hq⟩
          exact Or.inr ⟨en', List.mem_cons_of_mem _ hen', hq⟩
      · rintro (hs | ⟨en', hen', ht, hi⟩)
        · exact Or.inl hs
        · rcases List.mem_cons.mp hen' with rfl | hmem
          · rcases hcase with hfalse | hmem2
            · rw [hi] at hfalse
              exact absurd hfalse (by simp)
            · exact Or.inl (ht ▸ hmem2)
          · exact Or.inr ⟨en', hmem, ht, hi⟩

theorem handleIntersection_noop (es : List ObserverEntry) (s : List Nat)
    (h : ∀ en ∈ es, en.target ∈ s) : handleIntersection s es = s := by
  induction es with
  | nil => rfl
  | cons en rest ih =>
    unfold handleIntersection
    have hmem : en.target ∈ s := h en (List.mem_cons_self en rest)
    have hc : (en.isIntersecting && !(s.contains en.target)) = false := by
      simp [hmem]
    rw [hc]
    simp only [Bool.false_eq_true, if_false]
    exact ih (fun x hx => h x (List.mem_cons_of_mem _ hx))

/-- C3: the revealed state of every observed element is monotonic: an
element already in the `animatedElements` set stays in it through any
batch of entries (no operation removes it); a batch whose targets are all
already revealed leaves the set unchanged (later visibility events are
no-ops); and an element is revealed after a batch exactly when it was
already revealed or some intersecting notification in the batch targets
it — the first intersecting notification, and only it, flips the state. -/
theorem C3_revealed_monotonic (s : List Nat) (es : List ObserverEntry)
    (e : Nat) :
    (e ∈ s → e ∈ handleIntersection s es) ∧
    ((∀ en ∈ es, en.target ∈ s) → handleIntersection s es = s) ∧
    (e ∈ handleIntersection s es ↔
      e ∈ s ∨ ∃ en ∈ es, en.target = e ∧ en.isIntersecting = true) :=
  ⟨fun hs => (mem_handleIntersection es s e).mpr (Or.inl hs),
   handleIntersection_noop es s,
   mem_handleIntersection es s e⟩

theorem C3_revealed_monotonic_witness :
    (7 ∈ handleIntersection [7] [⟨7, true⟩, ⟨7, false⟩]) ∧
    handleIntersection [7] [⟨7, true⟩, ⟨7, false⟩] = [7] := by
  have h := C3_revealed_monotonic [7] [⟨7, true⟩, ⟨7, false⟩] 7
  exact ⟨h.1 (by decide), h.2.1 (by decide)⟩

/-- A revealable element as js/animations.js manipulates it: whether it
sits inside the hero section (excluded from scroll observation), its
`visible` class, and its inline opacity and transform styles. -/
structure AnimElement where
  inHero : Bool
  visible : Bool
  opacity : String
  transform : String
  deriving Repr, DecidableEq

/-- disableAnimations: make every selector-matched element immediately
visible — inline opacity "1", transform "none", class `visible`. -/
def disableAnimations (elems : List AnimElement) : List AnimElement :=
  elems.map (fun e => { e with opacity := "1", transform := "none", visible := true })

/-- observeElements: place every selector-matched element that is not
inside the hero section under the observer. -/
def observeElements (elems : List AnimElement) : List AnimElement :=
  elems.filter (fun e => !e.inHero)

/-- init: when the user prefers reduced motion, run disableAnimations and
return without creating an observer (`none`), so no notification can ever
be delivered; otherwise create the observer over the non-hero elements
and leave the elements untouched. -/
def init (prefersReducedMotion : Bool) (elems : List AnimElement) :
    List AnimElement × Option (List AnimElement) :=
  if prefersReducedMotion then (disableAnimations elems, none)
  else (elems, some (observeElements elems))

/-- C4: when the platform signals a reduced-motion preference at
construction time, init creates no observer — hence zero observation
events are ever delivered — and marks every tracked element revealed:
class `visible` and opacity "1" immediately. -/
theorem C4_reduced_motion_fast_path (elems : List AnimElement) :
    (init true elems).2 = none ∧
    ((init true elems).1.all
      (fun e => e.visible && (e.opacity == "1"))) = true := by
  constructor
  · rfl
  · rw [show (init true elems).1 = disableAnimations elems from rfl]
    rw [List.all_eq_true]
    intro e he
    rcases List.mem_map.mp he with ⟨a, _, rfl⟩
    rfl

/-- The constructor's effective animationDelay (the stagger step in ms):
the config object literal writes the default expression first and then
spreads the raw config over it, so a key present in the raw config always
wins — including an explicit 0, which the `config.animationDelay || 100`
default expression alone would have replaced by 100 — while an absent key
leaves the default 100. -/
def effectiveAnimationDelay : Option Nat → Nat
  | some v => v
  | none => 100

/-- A stagger target: only its inline animation-delay style matters. -/
structure StaggerEl where
  animationDelay : String
  deriving Repr, DecidableEq

/-- The forEach body of applyStaggeredDelays for the element at index
`idx`: set style.animationDelay to the interpolated template string for
the delay baseDelay + index * animationDelay. -/
def setDelay (step base idx : Nat) (e : StaggerEl) : StaggerEl :=
  { e with animationDelay := toString (base + idx * step) ++ "ms" }

/-- applyStaggeredDelays with the forEach index threaded explicitly. -/
def applyStaggeredDelaysFrom (step base idx : Nat) :
    List StaggerEl → List StaggerEl
  | [] => []
  | e :: rest =>
    setDelay step base idx e :: applyStaggeredDelaysFrom step base (idx + 1) rest

/-- applyStaggeredDelays(elements, baseDelay = 0): for every element and
its index, assign the inline animation-delay computed from the base delay
and the configured step. -/
def applyStaggeredDelays (step base : Nat) (elems : List StaggerEl) :
    List StaggerEl :=
  applyStaggeredDelaysFrom step base 0 elems

theorem applyStaggeredDelaysFrom_get? (step base : Nat) (l : List StaggerEl)
    (idx i : Nat) :
    (applyStaggeredDelaysFrom step base idx l).get? i =
      (l.get? i).map (setDelay step base (idx + i)) := by
  induction l generalizing idx i with
  | nil => simp [applyStaggeredDelaysFrom]
  | cons e rest ih =>
    cases i with
    | zero => simp [applyStaggeredDelaysFrom]
    | succ i =>
      unfold applyStaggeredDelaysFrom
      have harith : idx + 1 + i = idx + (i + 1) := by omega
      simpa [harith] using ih (idx + 1) i

/-- C7: for every ordered element sequence, every non-negative base delay
and every non-negative configured stagger step — an explicitly configured
step survives the constructor even when it is 0 — applyStaggeredDelays
assigns the element at index i exactly the inline animation-delay
(base + i * step) milliseconds. -/
theorem C7_stagger_delays_exact (step base : Nat) (elems : List StaggerEl)
    (i : Nat) (hi : i < elems.length) :
    ((applyStaggeredDelays (effectiveAnimationDelay (some step)) base
        elems).get? i).map (fun e => e.animationDelay) =
      some (toString (base + i * step) ++ "ms") := by
  rw [applyStaggeredDelays, applyStaggeredDelaysFrom_get?, List.get?_eq_get hi]
  simp [setDelay, effectiveAnimationDelay]

theorem C7_stagger_delays_exact_witness :
    ((applyStaggeredDelays (effectiveAnimationDelay (some 100)) 0
        [{ animationDelay := "" }, { animationDelay := "" }]).get? 1).map
      (fun e => e.animationDelay) = some (toString (0 + 1 * 100) ++ "ms") :=
  C7_stagger_delays_exact 100 0 _ 1 (by decide)

end ScrollAnimations

/-!
### Background audio and the visibilitychange listener (setupAutoplayAudio)

The repository carries two variants of its main script.  The one at
js/main.js resumes on visibility-visible whenever the audio was
initialized; the popup-aware variant additionally requires the welcome
popup overlay to be absent or closed before resuming.  Both are embedded
so the claimed overlay gating can be checked against each.
-/

/-- The page-wide HTMLAudioElement handle: only its paused flag matters. -/
structure AudioEl where
  paused : Bool
  deriving Repr, DecidableEq

/-- The module-scoped audio state: the audioInitialized flag and the
backgroundAudio handle (`none` until initBackgroundAudio ran). -/
structure AudioState where
  audioInitialized : Bool
  backgroundAudio : Option AudioEl
  deriving Repr, DecidableEq

/-- initBackgroundAudio: when not yet initialized, create the Audio
element — a fresh element starts paused — and set the flag. -/
def initBackgroundAudio (st : AudioState) : AudioState :=
  if st.audioInitialized then st
  else { audioInitialized := true, backgroundAudio := some { paused := true } }

/-- playBackgroundAudio: initialize first when the handle is missing or the
flag is unset, then call play() on the handle when it exists; a successful
play leaves the element unpaused.  (The promise-rejection path of blocked
autoplay is platform nondeterminism outside this model.) -/
def playBackgroundAudio (st : AudioState) : AudioState :=
  let st1 := if st.backgroundAudio.isNone || !st.audioInitialized
    then initBackgroundAudio st else st
  match st1.backgroundAudio with
  | some _ => { st1 with backgroundAudio := some { paused := false } }
  | none => st1

/-- pauseBackgroundAudio: pause the element when it exists and is playing;
otherwise do nothing. -/
def pauseBackgroundAudio (st : AudioState) : AudioState :=
  match st.backgroundAudio with
  | some a =>
    if !a.paused then { st with backgroundAudio := some { paused := true } }
    else st
  | none => st

/-- The popup-closed test of the popup-aware variant:
`!popup || popup.style.display === 'none'`, with the popup argument the
display style of the #popup-overlay element, `none` when the element is
absent. -/
def popupClosed (popup : Option String) : Bool :=
  popup.isNone || popup == some "none"

/-- The visibilitychange listener installed by setupAutoplayAudio in
js/main.js: hidden pauses; visible plays again whenever the audio was
initialized and the handle exists.  The popup argument is the display
state of a #popup-overlay element in the document; this variant never
reads it. -/
def visibilityChangeMain (hidden : Bool) (_popup : Option String)
    (st : AudioState) : AudioState :=
  if hidden then pauseBackgroundAudio st
  else if st.audioInitialized && st.backgroundAudio.isSome then
    playBackgroundAudio st
  else st

/-- The visibilitychange listener of the popup-aware main-script variant:
hidden pauses; visible resumes only when the audio was initialized, the
handle exists, and the welcome popup is absent or closed. -/
def visibilityChangePopup (hidden : Bool) (popup : Option String)
    (st : AudioState) : AudioState :=
  if hidden then pauseBackgroundAudio st
  else if st.audioInitialized && st.backgroundAudio.isSome then
    if popupClosed popup then playBackgroundAudio st
    else st
  else st

/-- True when the audio element, if present, is paused; a page without a
handle plays nothing. -/
def audioPaused (st : AudioState) : Bool :=
  match st.backgroundAudio with
  | some a => a.paused
  | none => true

/-- C8 counterexample: the js/main.js variant resumes on
visibility-visible even while the welcome popup overlay is still displayed
(display "flex"): with initialized, paused audio and the open overlay, the
listener leaves the audio playing, refuting resume-only-when-no-unclosed-
overlay-is-displayed for that variant. -/
theorem C8_counterexample :
    audioPaused (visibilityChangeMain false (some "flex")
      { audioInitialized := true,
        backgroundAudio := some { paused := true } }) = false ∧
    popupClosed (some "flex") = false := by
  decide

/-- C8 (amended): on visibility-hidden both main-script variants always
end with the audio paused; on visibility-visible the popup-aware variant
resumes exactly when the audio was initialized, the handle exists and the
popup is absent or closed, while the js/main.js variant resumes exactly
when the audio was initialized and the handle exists, ignoring the
overlay. -/
theorem C8_visibility_pause_resume (popup : Option String) (st : AudioState) :
    audioPaused (visibilityChangeMain true popup st) = true ∧
    audioPaused (visibilityChangePopup true popup st) = true ∧
    audioPaused (visibilityChangePopup false popup st) =
      (!(st.audioInitialized && st.backgroundAudio.isSome &&
          popupClosed popup) && audioPaused st) ∧
    audioPaused (visibilityChangeMain false popup st) =
      (!(st.audioInitialized && st.backgroundAudio.isSome) &&
        audioPaused st) := by
  rcases st with ⟨ini, _ | ⟨⟨p⟩⟩⟩
  · cases ini <;>
      by_cases hp : popupClosed popup = true <;>
        simp [visibilityChangeMain, visibilityChangePopup,
          pauseBackgroundAudio, playBackgroundAudio, initBackgroundAudio,
          audioPaused, hp]
  · cases ini <;> cases p <;>
      by_cases hp : popupClosed popup = true <;>
        simp [visibilityChangeMain, visibilityChangePopup,
          pauseBackgroundAudio, playBackgroundAudio, initBackgroundAudio,
          audioPaused, hp]

/-!
### Contact form (class ContactForm in js/forms.js)

The trimmed value drives validation; string length is character count.
-/

/-- The whitespace class of the email pattern (the regex's \s): ASCII
whitespace plus the unicode space separators and BOM. -/
def isJsSpace (c : Char) : Bool :=
  c = ' ' || c = '\t' || c = '\n' || c = '\r' || c = '\x0b' || c = '\x0c' ||
  c = '\u00A0' || c = '\u1680' ||
  ('\u2000' ≤ c && c ≤ '\u200A') ||
  c = '\u2028' || c = '\u2029' || c = '\u202F' || c = '\u205F' ||
  c = '\u3000' || c = '\uFEFF'

/-- JS String.prototype.trim: strip the JS whitespace characters from both
ends.  Structural list recursion stands in for the position arithmetic of
the runtime so that concrete values evaluate. -/
def jsTrim (s : String) : String :=
  String.mk (((s.data.dropWhile isJsSpace).reverse.dropWhile isJsSpace).reverse)

/-- A character allowed in every segment of the email pattern: anything
but "@" and whitespace. -/
def isEmailChar (c : Char) : Bool :=
  !(c = '@') && !(isJsSpace c)

/-- Witnesses the `[^\s@]+ "." [^\s@]+` decomposition of the domain: a dot
at some position with a nonempty prefix and a nonempty suffix. -/
def hasInteriorDot (cs : List Char) : Bool :=
  (List.range cs.length).any
    (fun p => (cs.getD p ' ' == '.') && decide (0 < p) &&
      decide (p + 1 < cs.length))

/-- The email pattern of ContactForm — one or more non-space-non-@
characters, "@", one or more, ".", one or more, anchored at both ends.  A
string matches exactly when it splits on a single "@" into a nonempty
all-email-char local part and an all-email-char domain carrying an
interior dot. -/
def matchesEmailRegex (s : String) : Bool :=
  match s.splitOn "@" with
  | [localPart, domain] =>
    (!localPart.isEmpty) && localPart.data.all isEmailChar &&
    domain.data.all isEmailChar && hasInteriorDot domain.data
  | _ => false

/-- One form field together with its error display: the input's value, its
`error` class and aria-invalid attribute, and the text of its
#fieldName-error element. -/
structure FieldEl where
  value : String
  errorClass : Bool
  ariaInvalid : Bool
  errorText : String
  deriving Repr, DecidableEq

/-- The three validated fields, in their insertion order. -/
inductive FieldName where
  | name
  | email
  | message
  deriving Repr, DecidableEq

/-- showFieldError: flag the input and write the message. -/
def showFieldError (f : FieldEl) (msg : String) : FieldEl :=
  { f with errorClass := true, ariaInvalid := true, errorText := msg }

/-- clearFieldError: unflag the input and clear the message. -/
def clearFieldError (f : FieldEl) : FieldEl :=
  { f with errorClass := false, ariaInvalid := false, errorText := "" }

/-- validateField: trim the value; an empty value fails with the required
message; a non-matching email fails with the address message; a trimmed
message shorter than 10 characters fails with the length message;
otherwise clear any error and succeed. -/
def validateField (fieldName : FieldName) (f : FieldEl) : FieldEl × Bool :=
  if jsTrim f.value = "" then
    (showFieldError f "This field is required", false)
  else if fieldName = FieldName.email ∧
      matchesEmailRegex (jsTrim f.value) = false then
    (showFieldError f "Please enter a valid email address", false)
  else if fieldName = FieldName.message ∧ (jsTrim f.value).length < 10 then
    (showFieldError f "Message must be at least 10 characters", false)
  else (clearFieldError f, true)

/-- The submit button: its `loading` class and disabled attribute. -/
structure SubmitButton where
  loadingClass : Bool
  disabled : Bool
  deriving Repr, DecidableEq

/-- The .form-status element: its text and class attribute. -/
structure StatusEl where
  textContent : String
  className : String
  deriving Repr, DecidableEq

/-- The pieces of the contact form that handleSubmit touches. -/
structure FormState where
  name : FieldEl
  email : FieldEl
  message : FieldEl
  submitButton : SubmitButton
  statusElement : StatusEl
  deriving Repr, DecidableEq

/-- validateAllFields: validate name, email and message in insertion
order, keeping each field's presentational update, succeeding only when
all three succeeded. -/
def validateAllFields (st : FormState) : FormState × Bool :=
  ({ st with
      name := (validateField FieldName.name st.name).1,
      email := (validateField FieldName.email st.email).1,
      message := (validateField FieldName.message st.message).1 },
    (validateField FieldName.name st.name).2 &&
    (validateField FieldName.email st.email).2 &&
    (validateField FieldName.message st.message).2)

/-- The data handleSubmit collects for submission. -/
structure FormData where
  name : String
  email : String
  message : String
  deriving Repr, DecidableEq

/-- Outcome of the synchronous prefix of handleSubmit: either validation
rejected the form before submitForm was called, or submission started with
the collected trimmed values.  (The promise resolution of the simulated
submitForm call happens strictly later and is outside this synchronous
model.) -/
inductive SubmitOutcome where
  | rejected
  | submitting (data : FormData)
  deriving Repr, DecidableEq

/-- handleSubmit: preventDefault, validate all fields and return when any
failed; otherwise set the loading state on the submit button, clear the
status line, and call submitForm with the trimmed field values. -/
def handleSubmit (st : FormState) : FormState × SubmitOutcome :=
  if (validateAllFields st).2 = false then
    ((validateAllFields st).1, SubmitOutcome.rejected)
  else
    ({ (validateAllFields st).1 with
        submitButton := { loadingClass := true, disabled := true },
        statusElement := { textContent := "", className := "form-status" } },
      SubmitOutcome.submitting
        { name := jsTrim st.name.value, email := jsTrim st.email.value,
          message := jsTrim st.message.value })

/-- C10: when any field's trimmed value is empty, the email fails the
regex, or the trimmed message is shorter than 10 characters, handleSubmit
returns before submitForm is called: the outcome is rejected, the submit
button is never put into the loading/disabled state, and the form-status
element is unchanged. -/
theorem C10_invalid_form_not_submitted (st : FormState)
    (h : jsTrim st.name.value = "" ∨ jsTrim st.email.value = "" ∨
      jsTrim st.message.value = "" ∨
      matchesEmailRegex (jsTrim st.email.value) = false ∨
      (jsTrim st.message.value).length < 10) :
    (handleSubmit st).2 = SubmitOutcome.rejected ∧
    (handleSubmit st).1.submitButton = st.submitButton ∧
    (handleSubmit st).1.statusElement = st.statusElement := by
  have hv : (validateAllFields st).2 = false := by
    unfold validateAllFields
    rcases h with h | h | h | h | h
    · simp [validateField, h]
    · simp [validateField, h]
    · simp [validateField, h]
    · by_cases h0 : jsTrim st.email.value = ""
      · simp [validateField, h0]
      · simp [validateField, h0, h]
    · by_cases h0 : jsTrim st.message.value = ""
      · simp [validateField, h0]
      · simp [validateField, h0, h]
  have hsplit : handleSubmit st =
      ((validateAllFields st).1, SubmitOutcome.rejected) := by
    unfold handleSubmit
    rw [if_pos hv]
  rw [hsplit]
  exact ⟨rfl, rfl, rfl⟩

def invalidFixtureForm : FormState :=
  { name := { value := "", errorClass := false, ariaInvalid := false,
              errorText := "" },
    email := { value := "ab", errorClass := false, ariaInvalid := false,
               errorText := "" },
    message := { value := "hello there wedding", errorClass := false,
                 ariaInvalid := false, errorText := "" },
    submitButton := { loadingClass := false, disabled := false },
    statusElement := { textContent := "", className := "form-status" } }

theorem C10_invalid_form_not_submitted_witness :
    (handleSubmit invalidFixtureForm).2 = SubmitOutcome.rejected ∧
    (handleSubmit invalidFixtureForm).1.submitButton =
      invalidFixtureForm.submitButton ∧
    (handleSubmit invalidFixtureForm).1.statusElement =
      invalidFixtureForm.statusElement :=
  C10_invalid_form_not_submitted invalidFixtureForm (Or.inl (by decide))

end WeddingInvite
